import Mathlib

/-!
Verification development for `vespalog/src/logger/runserver.cpp`, the
single-child process supervisor (`runserver`).  The definitions below are a
shallow embedding of the C++ source: wait-status decoding, the `PidFile`
class, the signal-handler flag protocol, the restart wait loop, the stop-mode
polling loop, and the start/stop main dispatch.  Machine integers are modelled
as `Nat`/`Int`; OS effects (the `kill(pid, 0)` probe, `flock`, the liveness of
a process group) are passed in as explicit parameters, and the observable
actions of a run (messages, signals sent, file cleanup) are returned as
explicit event lists.
-/

namespace Runserver

/-! ## Wait-status decoding (glibc encoding of the `wstat` word)

`WIFEXITED(s)` is `(s & 0x7f) == 0`; `WEXITSTATUS(s)` is `(s >> 8) & 0xff`;
`WIFSIGNALED(s)` is true when the low 7 bits are neither `0` nor `0x7f`;
`WTERMSIG(s)` is `s & 0x7f`; `WCOREDUMP(s)` is bit `0x80`. -/

/-- WIFEXITED: the low seven bits of the wait status are zero. -/
def wifexited (s : Nat) : Bool := s % 128 == 0

/-- WEXITSTATUS: bits 8..15 of the wait status. -/
def wexitstatus (s : Nat) : Nat := s / 256 % 256

/-- WIFSIGNALED: the low seven bits are neither 0 (normal exit) nor 0x7f (stopped). -/
def wifsignaled (s : Nat) : Bool := s % 128 != 0 && s % 128 != 127

/-- WTERMSIG: the low seven bits of the wait status. -/
def wtermsig (s : Nat) : Nat := s % 128

/-- WCOREDUMP: the 0x80 bit of the wait status. -/
def wcoredump (s : Nat) : Bool := s / 128 % 2 == 1

/-- runserver.cpp lines 295-297: the value `loop` returns for the wait status
of the last reaped child: the terminating signal if the child died by signal,
otherwise the exit status. -/
def loopResult (wstat : Nat) : Nat :=
  if wifsignaled wstat then wtermsig wstat else wexitstatus wstat

/-- runserver.cpp lines 440-454: across the do-while restart loop, `stat` is
overwritten by each `loop(...)` call; after the loop it holds the result of
the last completed child run (initially 0). -/
def restartLoopStat (runs : List Nat) : Nat :=
  runs.foldl (fun _ w => loopResult w) 0

/-- runserver.cpp line 463, `exit(stat)`: the exit status a waiting parent
observes is the low 8 bits of the argument. -/
def supervisorExit (runs : List Nat) : Nat := restartLoopStat runs % 256

/-! ## The C `atoi` used by `PidFile::readPid` (line 116) -/

/-- C-locale `isspace`: space, tab, newline, vertical tab, form feed, carriage
return. -/
def isSpaceC (c : Char) : Bool :=
  c.toNat == 32 || (9 ≤ c.toNat && c.toNat ≤ 13)

/-- Accumulate leading decimal digits, stopping at the first non-digit. -/
def digitsVal : List Char → Nat → Nat
  | [], acc => acc
  | c :: cs, acc => if c.isDigit then digitsVal cs (10 * acc + (c.toNat - 48)) else acc

/-- Strip one optional leading sign character, reporting whether it was a
minus. -/
def signSplit : List Char → Bool × List Char
  | '-' :: rest => (true, rest)
  | '+' :: rest => (false, rest)
  | cs => (false, cs)

/-- C `atoi`: skip leading whitespace, then an optional sign, then leading
decimal digits; everything from the first non-digit on is ignored, and no
digits at all yields 0. -/
def atoiChars (cs : List Char) : Int :=
  let sr := signSplit (cs.dropWhile isSpaceC)
  if sr.1 then -(digitsVal sr.2 0 : Int) else (digitsVal sr.2 0 : Int)

/-- A character list begins (after whitespace and an optional sign) with a
decimal digit, i.e. `atoiChars` can extract a number from it. -/
def parsableInt (cs : List Char) : Bool :=
  match (signSplit (cs.dropWhile isSpaceC)).2 with
  | [] => false
  | c :: _ => c.isDigit

/-- `fgets(buf, 100, pf)`: the first line of the stream, up to and including
its newline, truncated to at most 99 characters. -/
def takeLine : Nat → List Char → List Char
  | 0, _ => []
  | _, [] => []
  | n + 1, c :: cs => if c == '\n' then [c] else c :: takeLine n cs

/-! ## PidFile (runserver.cpp lines 41-132)

The pid file is modelled as `Option String` (`none` = the file does not
exist).  The `kill(pid, 0)` probe is modelled by a function from pid to the
outcome of the probe. -/

/-- Outcome of `kill(pid, 0)`: success, or failure with `errno` EPERM or
ESRCH. -/
inductive KillRes
  | ok
  | eperm
  | esrch
deriving DecidableEq

namespace PidFile

/-- PidFile::readPid, lines 107-117: missing file gives 0; otherwise `buf` is
pre-set to "0", `fgets` reads the first line (at most 99 characters; on an
empty file it fails and leaves `buf` as "0"), and the result is `atoi(buf)`. -/
def readPid (file : Option String) : Int :=
  match file with
  | none => 0
  | some content =>
    if content.data.isEmpty then atoiChars ['0']
    else atoiChars (takeLine 99 content.data)

/-- PidFile::isRunning, lines 119-125: false when the recorded pid is below 1;
otherwise true iff `kill(pid, 0)` succeeds or fails with EPERM. -/
def isRunning (file : Option String) (probe : Int → KillRes) : Bool :=
  let pid := readPid file
  if pid < 1 then false
  else
    match probe pid with
    | KillRes.ok => true
    | KillRes.eperm => true
    | KillRes.esrch => false

/-- PidFile::isMine, lines 127-132: the recorded pid equals the calling
process's pid. -/
def isMine (file : Option String) (selfPid : Int) : Bool :=
  readPid file == selfPid

/-- PidFile::cleanUp, lines 59-65: the file is removed when the caller is the
recorded owner or the recorded owner is not running; otherwise it is left in
place. -/
def cleanUpFile (file : Option String) (probe : Int → KillRes) (selfPid : Int) :
    Option String :=
  if isMine file selfPid || !isRunning file probe then none else file

end PidFile

/-! ## SignalRelay (runserver.cpp lines 29-39 and 285-293)

Three `volatile sig_atomic_t` flags: `gotstopsig`, `lastsig`, `unhandledsig`.
The handler `termsig` writes all three; the main loop's per-iteration check
forwards `lastsig` to a still-alive child and clears `unhandledsig`. -/

/-- The process-wide signal flags. -/
structure SigState where
  gotstopsig : Bool
  lastsig : Nat
  unhandledsig : Bool
deriving DecidableEq

/-- An event acting on the signal flags: delivery of a handled signal (the
handler `termsig`, lines 34-38), or one main-loop signal check (lines
285-293) with the current child pid (0 = child already reaped). -/
inductive SigEvent
  | handler (sig : Nat)
  | mainCheck (child : Nat)
deriving DecidableEq

/-- One event step.  `termsig` sets `lastsig = sig; gotstopsig = 1;
unhandledsig = 1`.  The main-loop check forwards `lastsig` to the child
(returned as `some (child, lastsig)`, the `kill(child, lastsig)` of line 291)
and clears `unhandledsig` exactly when `unhandledsig && child != 0`. -/
def sigStep : SigState → SigEvent → SigState × Option (Nat × Nat)
  | _, SigEvent.handler sig => (⟨true, sig, true⟩, none)
  | s, SigEvent.mainCheck child =>
    if s.unhandledsig && child != 0 then
      ({ s with unhandledsig := false }, some (child, s.lastsig))
    else (s, none)

/-- Fold a sequence of events over the signal flags. -/
def sigRun : SigState → List SigEvent → SigState
  | s, [] => s
  | s, e :: es => sigRun (sigStep s e).1 es

/-! ## RestartPolicy (runserver.cpp lines 443-454) -/

/-- Line 454, the do-while condition (with the order of the reads as on line
454): another round is started iff no stop signal arrived and `restart > 0`. -/
def restartAttempt (restart : Int) (gotstopsig : Bool) : Bool :=
  !gotstopsig && decide (0 < restart)

/-- Lines 447-448: the wait the supervisor logs, `wt = restart + laststart -
now`, clamped below at 0. -/
def loggedWait (restart laststart now : Int) : Int :=
  if restart + laststart - now < 0 then 0 else restart + laststart - now

/-- Lines 451-453 with no stop signal pending: `while (time(NULL) - laststart
< restart) sleep(1);`.  Each `sleep(1)` advances the clock by one second; the
result is the clock value at which the wait loop exits.  `fuel` bounds the
number of iterations (any value at least the remaining wait works). -/
def sleepWait : Nat → Int → Int → Int → Int
  | 0, _, _, now => now
  | fuel + 1, restart, laststart, now =>
    if now - laststart < restart then sleepWait fuel restart laststart (now + 1)
    else now

/-! ## StopController polling loop (runserver.cpp lines 371-390)

`for (int cnt(0); cnt < 1800; cnt++)`: each iteration sleeps 100 ms
(`usleep(100000)`), re-sends SIGTERM when `cnt > 300 && cnt % 100 == 0`,
probes the process group with `killpg(pid, 0)`, breaks out as soon as the
probe fails, and sends SIGKILL when `cnt == 900`.  `alive cnt` is the outcome
of the probe in iteration `cnt`. -/

/-- Observable actions of the stop-mode polling loop, each tagged with the
iteration counter `cnt` (iteration `cnt` covers the wall-clock interval from
`cnt * 100` ms to `(cnt + 1) * 100` ms). -/
inductive StopEv
  | tick (cnt : Nat)
  | sendTerm (cnt : Nat)
  | sendKill (cnt : Nat)
deriving DecidableEq

/-- The iteration counter an event is tagged with. -/
def evIdx : StopEv → Nat
  | StopEv.tick c => c
  | StopEv.sendTerm c => c
  | StopEv.sendKill c => c

/-- Whether an event is the 100 ms sleep of one iteration. -/
def isTick : StopEv → Bool
  | StopEv.tick _ => true
  | _ => false

/-- Number of 100 ms sleeps in a trace. -/
def countTicks (evs : List StopEv) : Nat := evs.countP isTick

/-- The polling loop of lines 372-390, started as `stopPoll alive 1800 0`.
Per iteration, in source order: `usleep(100000)` (the `tick`), the
conditional SIGTERM re-send, the `killpg(pid, 0)` probe (break on failure),
and the conditional SIGKILL at `cnt == 900`.  Returns the event trace and
`some cnt` when the loop broke out at iteration `cnt` (`none` when it ran to
the bound). -/
def stopPoll (alive : Nat → Bool) : Nat → Nat → List StopEv × Option Nat
  | 0, _ => ([], none)
  | fuel + 1, cnt =>
    if alive cnt then
      (StopEv.tick cnt ::
        ((if 300 < cnt && cnt % 100 == 0 then [StopEv.sendTerm cnt] else []) ++
         (if cnt == 900 then [StopEv.sendKill cnt] else []) ++
         (stopPoll alive fuel (cnt + 1)).1),
       (stopPoll alive fuel (cnt + 1)).2)
    else
      (StopEv.tick cnt ::
        (if 300 < cnt && cnt % 100 == 0 then [StopEv.sendTerm cnt] else []),
       some cnt)

/-! ## Argument-shape dispatch (runserver.cpp lines 320-340, 353, 398-400) -/

/-- Which path `main` takes after option parsing. -/
inductive Dispatch
  | stopMode
  | startMode
  | usageError (exitCode : Nat)
deriving DecidableEq

/-- Line 353 (`if (doStop)`) and lines 398-400 (`if (optind >= argc || killcmd
!= NULL) usage(argv[0], 1)`): stop mode is entered whenever `-S` was given;
otherwise a missing trailing command or a `-k` argument is a usage error with
exit status 1; otherwise start mode proceeds.  `hasCommand` is `optind <
argc`. -/
def dispatch (doStop : Bool) (killcmd : Option String) (hasCommand : Bool) : Dispatch :=
  if doStop then Dispatch.stopMode
  else if !hasCommand || killcmd.isSome then Dispatch.usageError 1
  else Dispatch.startMode

/-! ## Stop mode (runserver.cpp lines 353-397) -/

namespace StopMode

/-- Observable actions of a stop-mode run. -/
inductive Ev
  | msgNotRunning
  | msgRunningKillcmd (pid : Int) (cmd : String)
  | msgRunningTerm (pid : Int)
  | runCmd (cmd : String)
  | msgCmdProblem (cmd : String)
  | killpgTerm (pid : Int)
  | msgCouldNotSignal (pid : Int)
  | msgWaiting
  | poll (e : StopEv)
  | cleanUp
deriving DecidableEq

/-- Result of a stop-mode run: the trace of observable actions, the process
exit status, and the pid file as left on disk. -/
structure StopRes where
  events : List Ev
  exitCode : Nat
  fileAfter : Option String
deriving DecidableEq

/-- Stop mode, lines 353-397.  `killpgOk` is whether the initial
`killpg(pid, SIGTERM)` of line 365 succeeds; `cmdOk` is whether
`system(killcmd)` returns 0; `alive` drives the polling loop's probes;
`selfPid` is the stopping process's own pid (used by `cleanUp`). -/
def run (file : Option String) (probe : Int → KillRes) (selfPid : Int)
    (killcmd : Option String) (killpgOk cmdOk : Bool) (alive : Nat → Bool) :
    StopRes :=
  if PidFile.isRunning file probe then
    let pid := PidFile.readPid file
    match killcmd with
    | some cmd =>
      { events := [Ev.msgRunningKillcmd pid cmd, Ev.runCmd cmd]
          ++ (if cmdOk then [] else [Ev.msgCmdProblem cmd])
          ++ [Ev.msgWaiting] ++ (stopPoll alive 1800 0).1.map Ev.poll
          ++ [Ev.cleanUp],
        exitCode := 0,
        fileAfter := PidFile.cleanUpFile file probe selfPid }
    | none =>
      if killpgOk then
        { events := [Ev.msgRunningTerm pid, Ev.killpgTerm pid, Ev.msgWaiting]
            ++ (stopPoll alive 1800 0).1.map Ev.poll ++ [Ev.cleanUp],
          exitCode := 0,
          fileAfter := PidFile.cleanUpFile file probe selfPid }
      else
        { events := [Ev.msgRunningTerm pid, Ev.killpgTerm pid,
            Ev.msgCouldNotSignal pid],
          exitCode := 1,
          fileAfter := file }
  else
    { events := [Ev.msgNotRunning, Ev.cleanUp],
      exitCode := 0,
      fileAfter := PidFile.cleanUpFile file probe selfPid }

end StopMode

/-! ## Start mode foreground path (runserver.cpp lines 402-413, 466-471) -/

namespace StartMode

/-- Observable actions of the start-mode foreground process. -/
inductive Ev
  | msgAlreadyRunning (pid : Int)
  | lockAttempt
  | forkDetached
  | msgStarted
deriving DecidableEq

/-- Result of the start-mode foreground path: the trace of observable
actions, the exit status, the pid file as left by the foreground process
(before the detached supervisor writes its own pid), and whether the detached
supervisor was forked. -/
structure StartRes where
  events : List Ev
  exitCode : Nat
  fileAfter : Option String
  proceeded : Bool
deriving DecidableEq

/-- Start mode, lines 402-413 and 466-471.  If `PidFile::isRunning` reports a
live recorded pid, print the recorded pid and exit 0 (lines 402-406); else
attempt `writeOpen` — `open(O_CREAT) + flock(LOCK_EX | LOCK_NB)`, summarised
by `lockOk` — and on failure exit 1 (lines 408-411); else fork the detached
supervisor and exit 0 (lines 413, 470-471).  `writeOpen` creates the file if
absent and leaves existing content untouched. -/
def run (file : Option String) (probe : Int → KillRes) (lockOk : Bool) : StartRes :=
  if PidFile.isRunning file probe then
    { events := [Ev.msgAlreadyRunning (PidFile.readPid file)],
      exitCode := 0, fileAfter := file, proceeded := false }
  else if lockOk then
    { events := [Ev.lockAttempt, Ev.forkDetached, Ev.msgStarted],
      exitCode := 0, fileAfter := some (file.getD (String.mk [])),
      proceeded := true }
  else
    { events := [Ev.lockAttempt],
      exitCode := 1, fileAfter := some (file.getD (String.mk [])),
      proceeded := false }

end StartMode

/-- Modelled from the spec (section 4.1 and section 8): the decision rule the
spec ascribes to start mode — "the decision to proceed is determined by
successfully taking the OS advisory exclusive lock, not by the pid recorded
in the file's contents", i.e. proceed iff `try_exclusive_lock` succeeds.
Stated as a second definition only to be compared with `StartMode.run`. -/
def specProceedDecision (lockOk : Bool) : Bool := lockOk

/-! ## Child-death logging (runserver.cpp lines 264-271)

The `WIFSIGNALED` branch of the reaping code: warn about the terminating
signal only when it differs from `lastsig`, and inside that branch record a
core dump when `WCOREDUMP` is set. -/

/-- The log records the `WIFSIGNALED` branch can emit. -/
inductive Log
  | warnDiedFromSignal (sig : Nat)
  | infoDumpedCore (pid : Nat)
deriving DecidableEq

/-- Lines 264-271: on a child reaped with `WIFSIGNALED(wstat)`, the emitted
log records as a function of the wait status and the handler's `lastsig`. -/
def signalDeathLogs (cpid wstat lastsig : Nat) : List Log :=
  if wtermsig wstat != lastsig then
    Log.warnDiedFromSignal (wtermsig wstat)
      :: (if wcoredump wstat then [Log.infoDumpedCore cpid] else [])
  else []

/-- A concrete probe history for exercising the stop-mode polling loop: the
process group is alive for the first two 100 ms probes and gone from the
third on. -/
def aliveEx : Nat → Bool := fun c => decide (c < 2)

/-- A concrete probe history where the process group survives for 50 seconds
(500 probes), long enough to see a re-sent terminate signal. -/
def aliveEx2 : Nat → Bool := fun c => decide (c < 500)

/-!
# Theorems
-/

/-- The `atoi` model returns 0 whenever no leading decimal number is present
(after optional whitespace and sign), mirroring C `atoi` on unparsable
input. -/
theorem atoiChars_of_not_parsable (cs : List Char) (h : parsableInt cs = false) :
    atoiChars cs = 0 := by
  unfold atoiChars
  unfold parsableInt at h
  rcases hr : signSplit (cs.dropWhile isSpaceC) with ⟨neg, rest⟩
  rw [hr] at h
  cases rest with
  | nil => cases neg <;> simp [digitsVal]
  | cons c tl =>
    simp at h
    cases neg <;> simp [digitsVal, h]

/-- C1: for every supervised run that ends without a further restart, the
detached supervisor's final exit status (`exit(stat)`, line 463, observed
modulo 256) equals the last child's decoded outcome: the exit code on a
normal exit, the terminating signal number on a death by signal (lines
295-297). -/
theorem C1_final_exit_status (ws : List Nat) (w : Nat) :
    (wifexited w = true → supervisorExit (ws ++ [w]) = wexitstatus w) ∧
    (wifsignaled w = true → supervisorExit (ws ++ [w]) = wtermsig w) := by
  have hfold : restartLoopStat (ws ++ [w]) = loopResult w := by
    simp [restartLoopStat, List.foldl_append]
  constructor
  · intro h
    have h0 : w % 128 = 0 := by simpa [wifexited] using h
    have hs : wifsignaled w = false := by simp [wifsignaled, h0]
    simp only [supervisorExit, hfold, loopResult, hs, Bool.false_eq_true,
      if_false, wexitstatus]
    omega
  · intro h
    simp only [supervisorExit, hfold, loopResult, h, if_true, wtermsig]
    omega

/-- Witness for C1: a child exiting normally with code 3 (wait status 768)
and a child killed by signal 9 (wait status 9). -/
theorem C1_witness :
    supervisorExit ([] ++ [768]) = wexitstatus 768 ∧
    supervisorExit ([768] ++ [9]) = wtermsig 9 :=
  ⟨(C1_final_exit_status [] 768).1 (by decide),
   (C1_final_exit_status [768] 9).2 (by decide)⟩

/-- C6: `PidFile::readPid` returns 0 on a missing file and on a first line
with no parsable decimal integer (and, being a total function of the file
contents, never fails); `PidFile::isRunning` is true exactly when the
recorded pid is at least 1 and the null-signal probe either succeeds or
fails with EPERM, while ESRCH (or a pid below 1) yields false. -/
theorem C6_readPid_isRunning (content : String) (file : Option String)
    (probe : Int → KillRes)
    (hup : parsableInt (takeLine 99 content.data) = false) :
    PidFile.readPid none = 0 ∧
    PidFile.readPid (some content) = 0 ∧
    (PidFile.isRunning file probe = true ↔
      (1 ≤ PidFile.readPid file ∧
        (probe (PidFile.readPid file) = KillRes.ok ∨
         probe (PidFile.readPid file) = KillRes.eperm))) := by
  refine ⟨rfl, ?_, ?_⟩
  · unfold PidFile.readPid
    by_cases he : content.data.isEmpty
    · simp only [he, if_true]; decide
    · simp only [he, Bool.false_eq_true, if_false]
      exact atoiChars_of_not_parsable _ hup
  · unfold PidFile.isRunning
    by_cases h1 : PidFile.readPid file < 1
    · simp only [h1, if_true]
      constructor
      · intro h; exact absurd h (by simp)
      · intro h; omega
    · simp only [h1, Bool.false_eq_true, if_false]
      cases hpr : probe (PidFile.readPid file) <;> simp [hpr] <;> omega

/-- Witness for C6: the unparsable content "abc" and a file recording pid 7
probed as alive. -/
theorem C6_witness :
    PidFile.readPid none = 0 ∧
    PidFile.readPid (some ("abc")) = 0 ∧
    (PidFile.isRunning (some ("7\n")) (fun _ => KillRes.ok) = true ↔
      (1 ≤ PidFile.readPid (some ("7\n")) ∧
        (KillRes.ok = KillRes.ok ∨ KillRes.ok = KillRes.eperm))) :=
  C6_readPid_isRunning ("abc") (some ("7\n")) (fun _ => KillRes.ok) (by decide)

/-- C7: on a child reaped with a death-by-signal status (lines 264-271), the
"child died from signal" warning is logged exactly when the terminating
signal differs from the last relayed signal `lastsig`; the core-dump record
is logged exactly when additionally `WCOREDUMP` is set; when the terminating
signal equals `lastsig`, nothing is logged. -/
theorem C7_signal_death_logging (cpid wstat lastsig : Nat)
    (_hsig : wifsignaled wstat = true) :
    (Log.warnDiedFromSignal (wtermsig wstat) ∈ signalDeathLogs cpid wstat lastsig ↔
       wtermsig wstat ≠ lastsig) ∧
    (Log.infoDumpedCore cpid ∈ signalDeathLogs cpid wstat lastsig ↔
       (wtermsig wstat ≠ lastsig ∧ wcoredump wstat = true)) ∧
    (wtermsig wstat = lastsig → signalDeathLogs cpid wstat lastsig = []) := by
  unfold signalDeathLogs
  by_cases h : wtermsig wstat = lastsig
  · simp [h]
  · by_cases hc : wcoredump wstat <;> simp [h, hc]

/-- Witness for C7: a child killed by signal 6 with a core dump (wait status
134) while the last relayed signal was 15. -/
theorem C7_witness :
    (Log.warnDiedFromSignal (wtermsig 134) ∈ signalDeathLogs 55 134 15 ↔
       wtermsig 134 ≠ 15) ∧
    (Log.infoDumpedCore 55 ∈ signalDeathLogs 55 134 15 ↔
       (wtermsig 134 ≠ 15 ∧ wcoredump 134 = true)) ∧
    (wtermsig 134 = 15 → signalDeathLogs 55 134 15 = []) :=
  C7_signal_death_logging 55 134 15 (by decide)

/-- C8: the accepted argument shapes keep stop and start mode mutually
exclusive: `-S` always enters stop mode (no trailing command needed), start
mode is entered exactly when `-S` is absent, a trailing command is present
and no `-k` was given, a missing trailing command is a usage error with exit
status 1, and `-k` without `-S` is a usage error with exit status 1 (lines
353, 398-400). -/
theorem C8_argument_shapes (doStop : Bool) (k : Option String) (t : Bool)
    (c : String) :
    dispatch true k t = Dispatch.stopMode ∧
    (dispatch doStop k t = Dispatch.startMode ↔
       (doStop = false ∧ t = true ∧ k = none)) ∧
    dispatch false k false = Dispatch.usageError 1 ∧
    dispatch false (some c) t = Dispatch.usageError 1 := by
  unfold dispatch
  cases doStop <;> cases t <;> cases k <;> simp

/-- Under any sequence of handler deliveries and main-loop checks, a set
`gotstopsig` flag stays set: no event ever writes `false` into it. -/
theorem sigRun_gotstopsig (es : List SigEvent) :
    ∀ s : SigState, s.gotstopsig = true → (sigRun s es).gotstopsig = true := by
  induction es with
  | nil => intro s h; simpa [sigRun] using h
  | cons e es ih =>
    intro s h
    rw [sigRun]
    apply ih
    cases e with
    | handler sig => simp [sigStep]
    | mainCheck c =>
      unfold sigStep
      by_cases hc : s.unhandledsig && c != 0 <;> simp [hc, h]

/-- C5: once `gotstopsig` has been set it survives every further handler
delivery and main-loop check; the handler records the delivered signal and
sets both flags; the main-loop check forwards a signal exactly when
`unhandledsig` is pending and the child is still alive (pid nonzero), the
forwarded signal is exactly the recorded `lastsig`, and `unhandledsig` is
clear afterwards exactly when it was already clear or a forward happened. -/
theorem C5_signal_flags (s : SigState) (c n : Nat) (es : List SigEvent)
    (hset : s.gotstopsig = true) :
    (sigRun s es).gotstopsig = true ∧
    (sigStep s (SigEvent.handler n)).1 = ⟨true, n, true⟩ ∧
    ((sigStep s (SigEvent.mainCheck c)).2.isSome ↔
       (s.unhandledsig = true ∧ c ≠ 0)) ∧
    ((sigStep s (SigEvent.mainCheck c)).1.unhandledsig = false ↔
       (s.unhandledsig = false ∨ (sigStep s (SigEvent.mainCheck c)).2.isSome)) ∧
    ((sigStep s (SigEvent.mainCheck c)).2.isSome →
       (sigStep s (SigEvent.mainCheck c)).2 = some (c, s.lastsig)) := by
  refine ⟨sigRun_gotstopsig es s hset, rfl, ?_, ?_, ?_⟩ <;>
    · unfold sigStep
      by_cases h1 : s.unhandledsig <;> by_cases h2 : c = 0 <;> simp [h1, h2]

/-- Witness for C5: flags after a terminate signal (number 15) was recorded,
a check with live child pid 42, then a later interrupt (number 2). -/
theorem C5_witness :
    (sigRun ⟨true, 15, true⟩
        [SigEvent.mainCheck 42, SigEvent.handler 2]).gotstopsig = true ∧
    (sigStep ⟨true, 15, true⟩ (SigEvent.handler 2)).1 = ⟨true, 2, true⟩ ∧
    ((sigStep ⟨true, 15, true⟩ (SigEvent.mainCheck 42)).2.isSome ↔
       ((true : Bool) = true ∧ (42 : Nat) ≠ 0)) ∧
    ((sigStep ⟨true, 15, true⟩ (SigEvent.mainCheck 42)).1.unhandledsig = false ↔
       ((true : Bool) = false ∨
        (sigStep ⟨true, 15, true⟩ (SigEvent.mainCheck 42)).2.isSome)) ∧
    ((sigStep ⟨true, 15, true⟩ (SigEvent.mainCheck 42)).2.isSome →
       (sigStep ⟨true, 15, true⟩ (SigEvent.mainCheck 42)).2 = some (42, 15)) :=
  C5_signal_flags ⟨true, 15, true⟩ 42 2
    [SigEvent.mainCheck 42, SigEvent.handler 2] rfl

/-- The wait loop of lines 451-453, with no stop signal pending, exits at the
first whole second at which `now - laststart < restart` fails: `max 0
(restart - (now - laststart))` seconds after entry. -/
theorem sleepWait_eq : ∀ (fuel : Nat) (restart laststart now : Int),
    (restart - (now - laststart)).toNat ≤ fuel →
    sleepWait fuel restart laststart now =
      now + max 0 (restart - (now - laststart)) := by
  intro fuel
  induction fuel with
  | zero =>
    intro r ls now h
    unfold sleepWait
    omega
  | succ n ih =>
    intro r ls now h
    unfold sleepWait
    by_cases hc : now - ls < r
    · rw [if_pos hc, ih r ls (now + 1) (by omega)]
      omega
    · rw [if_neg hc]
      omega

/-- C4: a restart round is attempted exactly when the restart interval is
positive and no stop was requested (line 454); the wait before the next start
(lines 451-453), recomputed from the recorded `laststart`, is `max 0
(restart - (now - laststart))` seconds, the same value the supervisor logs
(lines 447-448); hence whenever the child ran for at most `restart` seconds,
the next start happens exactly `restart` seconds after the previous one. -/
theorem C4_restart_policy (restart laststart now : Int) (g : Bool) (fuel : Nat)
    (hfuel : (restart - (now - laststart)).toNat ≤ fuel) :
    (restartAttempt restart g = true ↔ (g = false ∧ 0 < restart)) ∧
    (sleepWait fuel restart laststart now - now =
       max 0 (restart - (now - laststart))) ∧
    (loggedWait restart laststart now = max 0 (restart - (now - laststart))) ∧
    (now - laststart ≤ restart →
       sleepWait fuel restart laststart now - laststart = restart) := by
  have hs := sleepWait_eq fuel restart laststart now hfuel
  refine ⟨?_, by omega, ?_, ?_⟩
  · cases g <;> simp [restartAttempt]
  · unfold loggedWait
    omega
  · intro h
    omega

/-- Witness for C4: interval 5 s, child started at time 0 and finished at
time 2; the supervisor sleeps 3 more seconds and restarts at time 5. -/
theorem C4_witness : sleepWait 10 5 0 2 - 0 = 5 :=
  (C4_restart_policy 5 0 2 false 10 (by decide)).2.2.2 (by decide)

/-- Every re-sent terminate signal in the stop-mode polling loop happens at
an iteration counter beyond 300 (30 seconds elapsed) that is a multiple of
100 (a 10-second boundary). -/
theorem stopPoll_sendTerm (alive : Nat → Bool) :
    ∀ (fuel cnt c : Nat), StopEv.sendTerm c ∈ (stopPoll alive fuel cnt).1 →
      300 < c ∧ c % 100 = 0 := by
  intro fuel
  induction fuel with
  | zero => intro cnt c h; simp [stopPoll] at h
  | succ n ih =>
    intro cnt c h
    rw [stopPoll] at h
    by_cases ha : alive cnt
    · rw [if_pos ha] at h
      simp only [List.mem_cons, List.mem_append] at h
      rcases h with h | (h | h) | h
      · exact absurd h (by simp)
      · by_cases hr : 300 < cnt && cnt % 100 == 0
        · rw [if_pos hr] at h
          simp at h hr
          omega
        · rw [if_neg hr] at h
          simp at h
      · by_cases hk : cnt == 900 <;> simp [hk] at h
      · exact ih (cnt + 1) c h
    · rw [if_neg ha] at h
      simp only [List.mem_cons] at h
      rcases h with h | h
      · exact absurd h (by simp)
      · by_cases hr : 300 < cnt && cnt % 100 == 0
        · rw [if_pos hr] at h
          simp at h hr
          omega
        · rw [if_neg hr] at h
          simp at h

/-- The kill signal of the stop-mode polling loop is only ever sent at
iteration counter 900 (90 seconds elapsed). -/
theorem stopPoll_sendKill (alive : Nat → Bool) :
    ∀ (fuel cnt c : Nat), StopEv.sendKill c ∈ (stopPoll alive fuel cnt).1 →
      c = 900 := by
  intro fuel
  induction fuel with
  | zero => intro cnt c h; simp [stopPoll] at h
  | succ n ih =>
    intro cnt c h
    rw [stopPoll] at h
    by_cases ha : alive cnt
    · rw [if_pos ha] at h
      simp only [List.mem_cons, List.mem_append] at h
      rcases h with h | (h | h) | h
      · exact absurd h (by simp)
      · by_cases hr : 300 < cnt && cnt % 100 == 0 <;> simp [hr] at h
      · by_cases hk : cnt == 900
        · rw [if_pos hk] at h
          simp at h hk
          omega
        · rw [if_neg hk] at h
          simp at h
      · exact ih (cnt + 1) c h
    · rw [if_neg ha] at h
      simp only [List.mem_cons] at h
      rcases h with h | h
      · exact absurd h (by simp)
      · by_cases hr : 300 < cnt && cnt % 100 == 0 <;> simp [hr] at h

/-- A conditional singleton re-send action contains no 100 ms sleep. -/
theorem countP_isTick_ifTerm (P : Prop) [Decidable P] (x : Nat) :
    List.countP isTick (if P then [StopEv.sendTerm x] else []) = 0 := by
  split <;> simp [isTick]

/-- A conditional singleton kill action contains no 100 ms sleep. -/
theorem countP_isTick_ifKill (P : Prop) [Decidable P] (x : Nat) :
    List.countP isTick (if P then [StopEv.sendKill x] else []) = 0 := by
  split <;> simp [isTick]

/-- The stop-mode polling loop performs at most `fuel` sleeps of 100 ms. -/
theorem stopPoll_ticks_le (alive : Nat → Bool) :
    ∀ (fuel cnt : Nat), countTicks (stopPoll alive fuel cnt).1 ≤ fuel := by
  intro fuel
  induction fuel with
  | zero => intro cnt; simp [stopPoll, countTicks]
  | succ n ih =>
    intro cnt
    rw [stopPoll]
    by_cases ha : alive cnt
    · rw [if_pos ha]
      have h3 := ih (cnt + 1)
      simp [countTicks, List.countP_cons, List.countP_append,
        countP_isTick_ifTerm, countP_isTick_ifKill, isTick] at h3 ⊢
      omega
    · rw [if_neg ha]
      simp [countTicks, List.countP_cons, countP_isTick_ifTerm, isTick]

/-- Against a target that never dies, the stop-mode polling loop performs
exactly `fuel` sleeps of 100 ms: it only ever stops early on a failed
liveness probe. -/
theorem stopPoll_ticks_all :
    ∀ (fuel cnt : Nat), countTicks (stopPoll (fun _ => true) fuel cnt).1 = fuel := by
  intro fuel
  induction fuel with
  | zero => intro cnt; simp [stopPoll, countTicks]
  | succ n ih =>
    intro cnt
    rw [stopPoll]
    rw [if_pos rfl]
    have h3 := ih (cnt + 1)
    simp [countTicks, List.countP_cons, List.countP_append,
      countP_isTick_ifTerm, countP_isTick_ifKill, isTick] at h3 ⊢
    omega

/-- When the stop-mode polling loop breaks out at counter `c`, the liveness
probe failed there, every emitted action happened at a counter at most `c`,
and every earlier probe succeeded: the loop exits as soon as a probe fails. -/
theorem stopPoll_break (alive : Nat → Bool) :
    ∀ (fuel cnt c : Nat), (stopPoll alive fuel cnt).2 = some c →
      alive c = false ∧ cnt ≤ c ∧
      (∀ e ∈ (stopPoll alive fuel cnt).1, evIdx e ≤ c) ∧
      (∀ d, cnt ≤ d → d < c → alive d = true) := by
  intro fuel
  induction fuel with
  | zero => intro cnt c h; simp [stopPoll] at h
  | succ n ih =>
    intro cnt c h
    rw [stopPoll] at h ⊢
    by_cases ha : alive cnt
    · rw [if_pos ha] at h ⊢
      obtain ⟨hdead, hle, hevs, hprev⟩ := ih (cnt + 1) c h
      refine ⟨hdead, by omega, ?_, ?_⟩
      · intro e he
        simp only [List.mem_cons, List.mem_append] at he
        rcases he with he | (he | he) | he
        · subst he; simp [evIdx]; omega
        · by_cases hr : 300 < cnt && cnt % 100 == 0
          · rw [if_pos hr] at he
            simp at he
            subst he
            simp [evIdx]
            omega
          · rw [if_neg hr] at he
            simp at he
        · by_cases hk : cnt == 900
          · rw [if_pos hk] at he
            simp at he
            subst he
            simp [evIdx]
            omega
          · rw [if_neg hk] at he
            simp at he
        · exact hevs e he
      · intro d hd1 hd2
        by_cases hdc : d = cnt
        · subst hdc; exact ha
        · exact hprev d (by omega) hd2
    · rw [if_neg ha] at h ⊢
      simp only [Option.some.injEq] at h
      subst h
      refine ⟨by simpa using ha, Nat.le_refl cnt, ?_, ?_⟩
      · intro e he
        simp only [List.mem_cons] at he
        rcases he with he | he
        · subst he; simp [evIdx]
        · by_cases hr : 300 < cnt && cnt % 100 == 0
          · rw [if_pos hr] at he
            simp at he
            subst he
            simp [evIdx]
          · rw [if_neg hr] at he
            simp at he
      · intro d hd1 hd2
        omega

/-- C3 amended: for every stop-mode invocation against a live target, lines
372-390 poll for death at 100 ms resolution for at most 180 seconds in total
(1800 iterations; the claim's 60-second bound is what the program prints on
line 371, not what the loop does); the terminate signal is re-sent only at
counters beyond 300 (30 s) on 100-counter (10 s) boundaries; the kill signal
is sent only at counter 900 (90 s); and the loop exits as soon as a liveness
probe of the process group fails. -/
theorem C3_amended_stop_polling (alive : Nat → Bool) :
    countTicks (stopPoll alive 1800 0).1 ≤ 1800 ∧
    (∀ c, StopEv.sendTerm c ∈ (stopPoll alive 1800 0).1 →
       300 < c ∧ c % 100 = 0) ∧
    (∀ c, StopEv.sendKill c ∈ (stopPoll alive 1800 0).1 → c = 900) ∧
    (∀ c, (stopPoll alive 1800 0).2 = some c →
       alive c = false ∧ (∀ e ∈ (stopPoll alive 1800 0).1, evIdx e ≤ c) ∧
       (∀ d, d < c → alive d = true)) :=
  ⟨stopPoll_ticks_le alive 1800 0,
   fun c => stopPoll_sendTerm alive 1800 0 c,
   fun c => stopPoll_sendKill alive 1800 0 c,
   fun c h =>
     ⟨(stopPoll_break alive 1800 0 c h).1,
      (stopPoll_break alive 1800 0 c h).2.2.1,
      fun d hd =>
        (stopPoll_break alive 1800 0 c h).2.2.2 d (Nat.zero_le d) hd⟩⟩

/-- C3 counterexample: against a target that never dies, the polling loop of
lines 372-390 performs 1800 sleeps of 100 ms each — 180000 ms of polling,
refuting the claimed bound of "at most 60 seconds in total" (60000 ms). -/
theorem C3_counterexample :
    countTicks (stopPoll (fun _ => true) 1800 0).1 = 1800 ∧
    ¬ (1800 * 100 ≤ 60 * 1000) :=
  ⟨stopPoll_ticks_all 1800 0, by decide⟩

/-- Witness for C3: a target whose process group is gone from the third
probe on makes the loop break out at counter 2 with all actions at counters
at most 2; and a target alive for 50 seconds receives a re-sent terminate at
counter 400, i.e. past 30 s on a 10 s boundary. -/
theorem C3_witness :
    ((stopPoll aliveEx 1800 0).2 = some 2 ∧ aliveEx 2 = false ∧
      (∀ e ∈ (stopPoll aliveEx 1800 0).1, evIdx e ≤ 2) ∧
      (∀ d, d < 2 → aliveEx d = true)) ∧
    (300 < 400 ∧ 400 % 100 = 0) :=
  ⟨⟨by decide, (C3_amended_stop_polling aliveEx).2.2.2 2 (by decide)⟩,
   (C3_amended_stop_polling aliveEx2).2.1 400 (by decide)⟩

/-- C9: a stop-mode invocation whose pid file does not identify a running
process (lines 391-397) prints the "not running" report, sends no signal and
runs no stop command (in particular the polling loop never runs), performs
pid-file cleanup — which removes the file, since the recorded owner is not
running — and exits with status 0. -/
theorem C9_stop_not_running (file : Option String) (probe : Int → KillRes)
    (selfPid : Int) (killcmd : Option String) (killpgOk cmdOk : Bool)
    (alive : Nat → Bool) (h : PidFile.isRunning file probe = false) :
    StopMode.run file probe selfPid killcmd killpgOk cmdOk alive =
      { events := [StopMode.Ev.msgNotRunning, StopMode.Ev.cleanUp],
        exitCode := 0, fileAfter := none } ∧
    (∀ p, StopMode.Ev.killpgTerm p ∉
       (StopMode.run file probe selfPid killcmd killpgOk cmdOk alive).events) ∧
    (∀ c, StopMode.Ev.runCmd c ∉
       (StopMode.run file probe selfPid killcmd killpgOk cmdOk alive).events) ∧
    (∀ e, StopMode.Ev.poll e ∉
       (StopMode.run file probe selfPid killcmd killpgOk cmdOk alive).events) := by
  have hr : StopMode.run file probe selfPid killcmd killpgOk cmdOk alive =
      { events := [StopMode.Ev.msgNotRunning, StopMode.Ev.cleanUp],
        exitCode := 0, fileAfter := none } := by
    simp [StopMode.run, PidFile.cleanUpFile, h]
  refine ⟨hr, ?_, ?_, ?_⟩ <;> simp [hr]

/-- Witness for C9: a missing pid file; the stop controller reports "not
running", touches no process, and exits 0. -/
theorem C9_witness :
    StopMode.run none (fun _ => KillRes.esrch) 1 none true true (fun _ => true) =
      { events := [StopMode.Ev.msgNotRunning, StopMode.Ev.cleanUp],
        exitCode := 0, fileAfter := none } ∧
    (∀ p, StopMode.Ev.killpgTerm p ∉
       (StopMode.run none (fun _ => KillRes.esrch) 1 none true true
          (fun _ => true)).events) ∧
    (∀ c, StopMode.Ev.runCmd c ∉
       (StopMode.run none (fun _ => KillRes.esrch) 1 none true true
          (fun _ => true)).events) ∧
    (∀ e, StopMode.Ev.poll e ∉
       (StopMode.run none (fun _ => KillRes.esrch) 1 none true true
          (fun _ => true)).events) :=
  C9_stop_not_running none (fun _ => KillRes.esrch) 1 none true true
    (fun _ => true) (by decide)

/-- C10: a start-mode invocation made while `PidFile::isRunning` reports a
live recorded pid (lines 402-406) prints the recorded pid to standard error
and exits with status 0, without attempting the lock, without forking the
detached supervisor, and leaving the pid file unchanged. -/
theorem C10_start_already_running (file : Option String)
    (probe : Int → KillRes) (lockOk : Bool)
    (h : PidFile.isRunning file probe = true) :
    StartMode.run file probe lockOk =
      { events := [StartMode.Ev.msgAlreadyRunning (PidFile.readPid file)],
        exitCode := 0, fileAfter := file, proceeded := false } ∧
    StartMode.Ev.lockAttempt ∉ (StartMode.run file probe lockOk).events ∧
    StartMode.Ev.forkDetached ∉ (StartMode.run file probe lockOk).events := by
  have hr : StartMode.run file probe lockOk =
      { events := [StartMode.Ev.msgAlreadyRunning (PidFile.readPid file)],
        exitCode := 0, fileAfter := file, proceeded := false } := by
    simp [StartMode.run, h]
  refine ⟨hr, ?_, ?_⟩ <;> simp [hr]

/-- Witness for C10: a pid file recording pid 7 with the probe reporting it
alive; the start path exits 0 after only the "already running" message. -/
theorem C10_witness :
    StartMode.run (some ("7\n")) (fun _ => KillRes.ok) true =
      { events := [StartMode.Ev.msgAlreadyRunning
          (PidFile.readPid (some ("7\n")))],
        exitCode := 0, fileAfter := some ("7\n"), proceeded := false } ∧
    StartMode.Ev.lockAttempt ∉
      (StartMode.run (some ("7\n")) (fun _ => KillRes.ok) true).events ∧
    StartMode.Ev.forkDetached ∉
      (StartMode.run (some ("7\n")) (fun _ => KillRes.ok) true).events :=
  C10_start_already_running (some ("7\n")) (fun _ => KillRes.ok) true
    (by decide)

/-- C2 counterexample: a pid file recording pid 7 whose recorded pid has been
reused by a live unrelated process while the advisory lock is free (`lockOk =
true`).  The spec's rule says the decision to proceed is the lock acquisition
alone, so it would proceed; the program instead consults the file's recorded
pid first (line 402) and exits as "already running" without ever attempting
the lock.  The decision is therefore not determined by the lock alone. -/
theorem C2_counterexample :
    ¬ ((StartMode.run (some ("7\n")) (fun _ => KillRes.ok) true).proceeded =
         specProceedDecision true) := by decide

/-- C2 amended: for every start-mode invocation whose pid file does not pass
the recorded-pid liveness pre-check of line 402 — in particular a stale file
whose recorded pid is dead and not reused — the file never blocks the fresh
start: the lock is attempted and the instance proceeds exactly when taking
the OS advisory exclusive lock succeeds.  (When the recorded pid probes as
live, the program exits first without attempting the lock, so the decision
is not determined by the lock alone.) -/
theorem C2_amended_lock_decision (file : Option String)
    (probe : Int → KillRes) (lockOk : Bool)
    (h : PidFile.isRunning file probe = false) :
    ((StartMode.run file probe lockOk).proceeded = true ↔ lockOk = true) ∧
    StartMode.Ev.lockAttempt ∈ (StartMode.run file probe lockOk).events := by
  cases lockOk <;> simp [StartMode.run, h]

/-- Witness for C2: a stale pid file recording the dead (ESRCH) pid 7 and an
acquirable lock; the fresh instance proceeds. -/
theorem C2_witness :
    ((StartMode.run (some ("7\n")) (fun _ => KillRes.esrch) true).proceeded =
        true ↔ true = true) ∧
    StartMode.Ev.lockAttempt ∈
      (StartMode.run (some ("7\n")) (fun _ => KillRes.esrch) true).events :=
  C2_amended_lock_decision (some ("7\n")) (fun _ => KillRes.esrch) true
    (by decide)

end Runserver
